import Mathlib

/-!
Verification development for the DeepWiki batch conversion extension.

The definitions below are a shallow embedding of the orchestration core of
the repository: the per-tab message delivery queue, the URL comparison and
navigation-confirmation helpers, the content readiness prober, the
single-page conversion retry policy, and the batch orchestrator state
machine. JavaScript promises are modelled by explicit settlement logs with
first-settlement-wins semantics, the chrome callback APIs by explicit
oracles, and timers by explicit events. Machine strings are Lean strings;
the JavaScript string helpers used by the source (includes, startsWith,
trim) are modelled by structurally recursive functions over character
lists so that the kernel can evaluate them.
-/

/-! ## JavaScript string helpers -/

/-- Boolean prefix test on character lists, modelling the JavaScript
String.prototype.startsWith used by the source. -/
def charsIsPrefix : List Char → List Char → Bool
  | [], _ => true
  | _ :: _, [] => false
  | a :: as, b :: bs => a == b && charsIsPrefix as bs

/-- Substring containment on character lists, modelling the JavaScript
String.prototype.includes used by the source. -/
def charsContains (needle : List Char) : List Char → Bool
  | [] => needle.isEmpty
  | c :: rest => charsIsPrefix needle (c :: rest) || charsContains needle rest

/-- hay.includes needle in JavaScript terms. -/
def strIncludes (hay needle : String) : Bool :=
  charsContains needle.data hay.data

/-- s.startsWith pre in JavaScript terms. -/
def strStartsWith (s pre : String) : Bool :=
  charsIsPrefix pre.data s.data

/-- Length of the JavaScript-trimmed string: leading and trailing
whitespace removed. Only the length of the trimmed text is ever used by
the source heuristics. -/
def trimmedLength (s : String) : Nat :=
  ((s.data.dropWhile Char.isWhitespace).reverse.dropWhile Char.isWhitespace).length

/-- Remove a single trailing slash, modelling the replace of a trailing
slash by the empty string in the source. -/
def stripTrailingSlash (s : String) : String :=
  match s.data.reverse with
  | '/' :: rest => String.mk rest.reverse
  | _ => s

/-- JavaScript or-else on strings, where the empty string is falsy. -/
def jsOr (s d : String) : String :=
  if s = "" then d else s

/-! ## URL model

The source calls the host URL parser, new URL, on raw strings. The
embedding records exactly what the source observes about an input: the
string is empty (falsy), it fails to parse, or it parses to an origin,
hostname, pathname and hash. The hash is the empty string when the URL
has no fragment, as with the host parser. -/

structure ParsedURL where
  origin : String
  hostname : String
  pathname : String
  hash : String
deriving DecidableEq

/-- A URL argument as observed through the host parser: a falsy value,
a nonempty string the parser throws on, or a parsed URL. -/
inductive URLInput where
  | missing
  | unparsable
  | parsed (u : ParsedURL)
deriving DecidableEq

/-- urlsRoughlyMatch from the service worker source part 000. Returns true
when either argument is falsy or unparsable; otherwise requires equal
origins, a strict hash check when the expected URL carries a nonempty
hash, and that one pathname be a prefix of the other. -/
def urlsRoughlyMatch (expectedUrl actualUrl : URLInput) : Bool :=
  match expectedUrl, actualUrl with
  | .missing, _ => true
  | _, .missing => true
  | .unparsable, _ => true
  | _, .unparsable => true
  | .parsed e, .parsed a =>
    if e.origin ≠ a.origin then false
    else if e.hash ≠ "" && e.hash != a.hash then false
    else strStartsWith a.pathname e.pathname || strStartsWith e.pathname a.pathname

/-! ## Navigation confirmation

waitForTabUrl polls the tab URL through the chrome tabs API; the poll
observations are given by an oracle from poll index to either a lookup
error or the reported tab URL. The fuel argument counts the polls that
may still happen before the deadline check fires. -/

inductive WaitOutcome where
  | resolvedNoPoll
  | resolvedAt (k : Nat)
  | rejectedTabError (k : Nat) (msg : String)
  | rejectedTimeout (k : Nat)
deriving DecidableEq

/-- The polling loop of waitForTabUrl: at each poll, a tab lookup error
rejects, a rough URL match resolves, an expired deadline rejects with a
timeout, and otherwise the next poll is scheduled. -/
def waitForTabUrlLoop (expected : URLInput) (obs : Nat → Except String URLInput) :
    Nat → Nat → WaitOutcome
  | 0, k =>
    match obs k with
    | .error m => .rejectedTabError k m
    | .ok u =>
      if urlsRoughlyMatch expected u then .resolvedAt k else .rejectedTimeout k
  | fuel + 1, k =>
    match obs k with
    | .error m => .rejectedTabError k m
    | .ok u =>
      if urlsRoughlyMatch expected u then .resolvedAt k
      else waitForTabUrlLoop expected obs fuel (k + 1)

/-- waitForTabUrl from the source: a falsy expected URL resolves at once,
without any poll; otherwise the polling loop runs with the given number
of pre-deadline polls. -/
def waitForTabUrl (expected : URLInput) (obs : Nat → Except String URLInput)
    (deadlinePolls : Nat) : WaitOutcome :=
  match expected with
  | .missing => .resolvedNoPoll
  | _ => waitForTabUrlLoop expected obs deadlinePolls 0

/-- The acceptance predicate of the onCompleted listener installed by
waitForNavigation: the event must concern the watched tab, its top
frame, and a URL roughly matching the destination. -/
def navCompletedAccepts (tabId : Nat) (expected : URLInput)
    (dTabId dFrameId : Nat) (dUrl : URLInput) : Bool :=
  (dTabId == tabId) && (dFrameId == 0) && urlsRoughlyMatch expected dUrl

/-! ## Per-tab delivery queue

The message queue entry of one tab. Payloads are abstract identifiers.
Each queued item records the send identity used to track its promise, the
payload, and the timeout duration armed for it. The settlement log models
the promise of each send: a promise settles at most once, so a second
settlement attempt for the same send identity leaves the log unchanged. -/

/-- MESSAGE_TIMEOUT from the source, in milliseconds. -/
def MESSAGE_TIMEOUT : Nat := 30000

structure QItem where
  sendId : Nat
  payload : Nat
  timeoutMs : Nat
deriving DecidableEq

/-- Outcome of one direct chrome.tabs.sendMessage attempt: the tab
responded, or the callback saw a runtime error with the given message. -/
inductive DirectResult where
  | ok (resp : Nat)
  | err (msg : String)
deriving DecidableEq

/-- A settlement of the promise of one send. -/
inductive Settle where
  | resolved (resp : Nat)
  | rejectedErr (msg : String)
  | rejectedTimeout
deriving DecidableEq

/-- The settlement a dispatch callback produces from its direct result. -/
def settleOfDirect : DirectResult → Settle
  | .ok r => .resolved r
  | .err m => .rejectedErr m

/-- State of the delivery queue entry of one tab, together with the
instrumentation the theorems read: the log of payloads dispatched to the
tab, in dispatch order, and the promise settlement log. nextId numbers
the sends. -/
structure TabQueueState where
  isReady : Bool
  queue : List QItem
  timerArmed : List Nat
  settled : List (Nat × Settle)
  dispatched : List QItem
  nextId : Nat
deriving DecidableEq

/-- The entry created by markTabPending and by queueMessageForTab when the
tab has no entry yet: not ready, with an empty buffer. -/
def pendingEmptyEntry : TabQueueState :=
  ⟨false, [], [], [], [], 0⟩

/-- True when the promise of the given send has already settled. -/
def settledHas (log : List (Nat × Settle)) (id : Nat) : Bool :=
  log.any fun p => p.1 == id

/-- Settle a promise: the first settlement wins, later ones are ignored. -/
def settleOnce (log : List (Nat × Settle)) (id : Nat) (s : Settle) :
    List (Nat × Settle) :=
  if settledHas log id then log else log ++ [(id, s)]

/-- The settlement recorded for a send, if any. -/
def lookupSettle (log : List (Nat × Settle)) (id : Nat) : Option Settle :=
  (log.find? fun p => p.1 == id).map fun p => p.2

/-- queueMessageForTab from the source: push the item onto the buffer of
the tab and arm a timeout of MESSAGE_TIMEOUT milliseconds for it. The
resolve and reject wrappers clear the timer and settle the promise. -/
def queueMessageForTab (payload : Nat) (s : TabQueueState) : TabQueueState :=
  { s with
    queue := s.queue ++ [⟨s.nextId, payload, MESSAGE_TIMEOUT⟩]
    timerArmed := s.timerArmed ++ [s.nextId]
    nextId := s.nextId + 1 }

/-- The timeout of a queued item fires: possible only while the timer is
armed, it rejects the promise with the timeout error if it is still
unsettled, and disarms the timer. The item itself is not touched: the
source timeout callback only rejects, it does not remove the item from
the buffer. -/
def timerFire (s : TabQueueState) (id : Nat) : TabQueueState :=
  if s.timerArmed.contains id then
    { s with
      timerArmed := s.timerArmed.erase id
      settled := settleOnce s.settled id .rejectedTimeout }
  else s

/-- dispatchMessageToTab from the source, together with its callback: the
item is sent to the tab, and the callback clears the timer of the item
and settles its promise with the response or the runtime error. The
oracle gives the direct result the tab produces for each send. -/
def dispatchOne (oracle : Nat → DirectResult) (s : TabQueueState) (it : QItem) :
    TabQueueState :=
  { s with
    dispatched := s.dispatched ++ [it]
    timerArmed := s.timerArmed.erase it.sendId
    settled := settleOnce s.settled it.sendId (settleOfDirect (oracle it.sendId)) }

/-- flushMessageQueue from the source: mark the entry ready, then shift
and dispatch every buffered item in arrival order until the buffer is
empty. -/
def flushMessageQueue (oracle : Nat → DirectResult) (s : TabQueueState) :
    TabQueueState :=
  s.queue.foldl (dispatchOne oracle) { s with isReady := true, queue := [] }

/-- shouldQueueForError from the source: only an error whose message
mentions a missing receiver or a failed connection is a queueable
delivery failure. An absent message is modelled by the empty string,
which is falsy in the source. -/
def shouldQueueForError (msg : String) : Bool :=
  if msg = "" then false
  else
    strIncludes msg "Receiving end does not exist" ||
      strIncludes msg "Could not establish connection"

/-- What a send call asks its caller to observe: the response arrived, the
payload was buffered, or the promise rejected with the given message. -/
inductive SendOutcome where
  | delivered (resp : Nat)
  | queued
  | rejected (msg : String)
deriving DecidableEq

/-- sendMessageToTab from the source. With an entry marked not ready the
payload is buffered directly. With an entry marked ready the direct
attempt is returned as is, with no fallback. With no entry at all, a
direct failure falls back to buffering exactly when shouldQueueForError
accepts it; buffering then creates the entry not ready. The second
component is the entry after the call, when one exists. -/
def sendMessageToTab (entry : Option TabQueueState) (direct : DirectResult)
    (payload : Nat) : SendOutcome × Option TabQueueState :=
  match entry with
  | some e =>
    if e.isReady = false then (.queued, some (queueMessageForTab payload e))
    else
      match direct with
      | .ok r => (.delivered r, some e)
      | .err m => (.rejected m, some e)
  | none =>
    match direct with
    | .ok r => (.delivered r, none)
    | .err m =>
      if shouldQueueForError m then
        (.queued, some (queueMessageForTab payload pendingEmptyEntry))
      else (.rejected m, none)

/-- Issue a sequence of sends against one entry; each is buffered when the
entry is pending, as in the delivery ordering scenario. -/
def enqueueAll (msgs : List Nat) (s : TabQueueState) : TabQueueState :=
  msgs.foldl (fun st p => queueMessageForTab p st) s

/-- The items a sequence of buffered sends produces, numbering from the
given first send identity. -/
def mkItems : Nat → List Nat → List QItem
  | _, [] => []
  | i, p :: ps => ⟨i, p, MESSAGE_TIMEOUT⟩ :: mkItems (i + 1) ps

/-- Consecutive identities starting at the given one. -/
def idsFrom : Nat → Nat → List Nat
  | _, 0 => []
  | i, n + 1 => i :: idsFrom (i + 1) n

/-! ## Readiness metrics and the empty-output heuristic -/

/-- CONTENT_READY_MIN_TEXT from the source. -/
def CONTENT_READY_MIN_TEXT : Nat := 160

/-- The readiness metrics snapshot produced by the content script. -/
structure Metrics where
  hasContainer : Bool
  textLength : Nat
  meaningfulCount : Nat
  hasMermaid : Bool
deriving DecidableEq

/-- What the content script measures when a content container exists. -/
structure ContainerMeasure where
  textLength : Nat
  meaningfulCount : Nat
  hasMermaid : Bool
deriving DecidableEq

/-- getContentReadinessMetrics from the content script: with no content
container found, the metrics are all zero and flagged as lacking a
container; otherwise the measured values are reported. -/
def getContentReadinessMetrics (container : Option ContainerMeasure) : Metrics :=
  match container with
  | none => ⟨false, 0, 0, false⟩
  | some c => ⟨true, c.textLength, c.meaningfulCount, c.hasMermaid⟩

/-- The readiness response object a waitForContentReady or
waitForTopicReady call resolves with, as far as the empty-output
heuristic reads it. A missing metrics field is modelled by none. -/
structure ReadinessInfo where
  ready : Bool
  timedOut : Bool
  metrics : Option Metrics
deriving DecidableEq

/-- The metrics reachable from an optional readiness response, as the
optional chaining of the source reads them. -/
def metricsOf (readiness : Option ReadinessInfo) : Option Metrics :=
  readiness.bind fun r => r.metrics

/-- isMarkdownSuspiciouslyEmpty from the service worker source: output of
trimmed length at least 80 is never suspicious; with no metrics the
floor is 20; with metrics the output is suspicious when the page looked
substantial by text volume, structural count or diagram presence. -/
def isMarkdownSuspiciouslyEmpty (markdown : String)
    (readiness : Option ReadinessInfo) : Bool :=
  let length := trimmedLength markdown
  if 80 ≤ length then false
  else
    match metricsOf readiness with
    | none => length < 20
    | some m =>
      let contentLooksSubstantial :=
        (CONTENT_READY_MIN_TEXT ≤ m.textLength) ||
          (6 ≤ m.meaningfulCount) || m.hasMermaid
      contentLooksSubstantial && decide (length < 80)

/-! ## Content readiness prober

waitForContentReady in the content script polls the page at a fixed
interval. Each poll observes whether the current address roughly matches
the expected one and measures the content container; the observation
trace is given by an oracle from poll index to observation. The fuel
argument counts the polls strictly before the deadline poll, at which the
loop resolves no matter what. -/

/-- One poll observation. -/
structure ReadyObs where
  urlOk : Bool
  container : Option ContainerMeasure
deriving DecidableEq

/-- The clamped minimum text length option of waitForContentReady: a
nonpositive or missing value falls back to the default 160. -/
def minTextLengthOf (opt : Option Nat) : Nat :=
  match opt with
  | some n => if 0 < n then n else 160
  | none => 160

/-- The ready condition checked on each poll by the content script. -/
def contentReadyCheck (minTextLength : Nat) (o : ReadyObs) : Bool :=
  let m := getContentReadinessMetrics o.container
  o.urlOk && m.hasContainer &&
    ((minTextLength ≤ m.textLength) || (6 ≤ m.meaningfulCount) || m.hasMermaid)

/-- The resolution value of waitForContentReady. -/
structure ReadyResult where
  ready : Bool
  timedOut : Bool
  metrics : Metrics
deriving DecidableEq

/-- The polling loop of waitForContentReady: resolve as soon as a poll is
ready, or at the deadline poll with timedOut set when that poll is still
not ready. -/
def waitForContentReadyLoop (minTextLength : Nat) (obs : Nat → ReadyObs) :
    Nat → Nat → ReadyResult
  | 0, k =>
    let o := obs k
    let r := contentReadyCheck minTextLength o
    ⟨r, !r, getContentReadinessMetrics o.container⟩
  | fuel + 1, k =>
    let o := obs k
    if contentReadyCheck minTextLength o then
      ⟨true, false, getContentReadinessMetrics o.container⟩
    else waitForContentReadyLoop minTextLength obs fuel (k + 1)

/-- waitForContentReady from the content script, over an observation
trace; deadlinePolls is the index of the poll at which the deadline has
passed. -/
def waitForContentReady (minTextLength : Nat) (obs : Nat → ReadyObs)
    (deadlinePolls : Nat) : ReadyResult :=
  waitForContentReadyLoop minTextLength obs deadlinePolls 0

/-- The readiness condition as the specification words it, without the
container conjunct: the address matches and the page shows enough text,
enough structural elements, or a diagram. -/
def readinessClaimCond (minTextLength : Nat) (o : ReadyObs) : Bool :=
  let m := getContentReadinessMetrics o.container
  o.urlOk &&
    ((minTextLength ≤ m.textLength) || (6 ≤ m.meaningfulCount) || m.hasMermaid)

/-! ## Single-page conversion retry policy

The conversion block of processSinglePage: convert once; when the output
is suspiciously empty, wait, re-probe readiness, convert once more, and
fail the page when the retried output is still suspicious or the retry
itself fails. The collaborator responses are inputs: each convert call
either rejects in delivery, resolves with no response object, or resolves
with a response; the re-probe either rejects or resolves with an optional
readiness object. -/

/-- The response object of a convertToMarkdown request. An absent error
or title field is the empty string, which is falsy in the source. -/
structure ConvertResp where
  success : Bool
  error : String
  markdown : String
  markdownTitle : String
deriving DecidableEq

/-- The conversion block of processSinglePage. Returns the conversion
result of the page together with the number of convertToMarkdown
requests issued. -/
def processSinglePageConversion (readiness : Option ReadinessInfo)
    (convert1 : Except String (Option ConvertResp))
    (retryProbe : Except String (Option ReadinessInfo))
    (convert2 : Except String (Option ConvertResp)) :
    Except String ConvertResp × Nat :=
  match convert1 with
  | .error e => (.error e, 1)
  | .ok none => (.error "Conversion failed", 1)
  | .ok (some r1) =>
    if r1.success = false then (.error (jsOr r1.error "Conversion failed"), 1)
    else if isMarkdownSuspiciouslyEmpty r1.markdown readiness then
      match retryProbe with
      | .error e => (.error e, 1)
      | .ok retryReadiness =>
        match convert2 with
        | .error e => (.error e, 2)
        | .ok none => (.error "Conversion retry failed", 2)
        | .ok (some r2) =>
          if r2.success then
            if isMarkdownSuspiciouslyEmpty r2.markdown
                (retryReadiness.orElse fun _ => readiness) then
              (.error "Converted markdown appears empty after retry.", 2)
            else (.ok r2, 2)
          else (.error (jsOr r2.error "Conversion retry failed"), 2)
    else (.ok r1, 1)

/-! ## File name sanitisation -/

/-- The characters the sanitiser replaces by a dash. -/
def badFileChar (c : Char) : Bool :=
  c == '\\' || c == '/' || c == ':' || c == '*' || c == '?' ||
    c == '"' || c == '<' || c == '>' || c == '|'

/-- Replace every maximal run of characters accepted by the predicate
with one dash. -/
def collapseRunsAux (p : Char → Bool) (inRun : Bool) : List Char → List Char
  | [] => []
  | c :: cs =>
    if p c then
      if inRun then collapseRunsAux p true cs
      else '-' :: collapseRunsAux p true cs
    else c :: collapseRunsAux p false cs

def collapseRuns (p : Char → Bool) (cs : List Char) : List Char :=
  collapseRunsAux p false cs

/-- Drop one leading dash, as the anchored replace of the source does. -/
def dropLeadingDash : List Char → List Char
  | '-' :: cs => cs
  | cs => cs

/-- sanitizeName from the source: replace file-hostile characters with
dashes, collapse whitespace runs and dash runs, strip one leading and
one trailing dash, and fall back when the result is empty. -/
def sanitizeName (value fallback : String) : String :=
  if value = "" then fallback
  else
    let s1 := value.data.map fun c => if badFileChar c then '-' else c
    let s2 := collapseRuns Char.isWhitespace s1
    let s3 := collapseRuns (fun c => c == '-') s2
    let s4 := (dropLeadingDash (dropLeadingDash s3).reverse).reverse
    if s4.isEmpty then fallback else String.mk s4

/-- sanitizeFolderName from the source. -/
def sanitizeFolderName (value : String) : String :=
  sanitizeName value "deepwiki"

/-! ## Project scope filtering -/

/-- A page descriptor extracted from the sidebar. The order prefix field
of the source is renamed to numberTag here. -/
structure PageEntry where
  url : String
  title : String
  devinIndex : Option Nat
  numberTag : String
deriving DecidableEq

/-- getProjectPrefix from the service worker source part 000, renamed:
derive the project path scope from a page URL. The host URL parser is a
parameter; parsing failure yields none as the source returns null. -/
def getProjectScopePath (parseURL : String → Option ParsedURL)
    (urlString : String) : Option String :=
  match parseURL urlString with
  | none => none
  | some url =>
    let pathSegments := (url.pathname.splitOn "/").filter fun s => s ≠ ""
    let isDevinAi := strIncludes url.hostname "devin.ai"
    match pathSegments.findIdx? (fun seg =>
        ["deepwiki", "wiki", "docs"].contains seg.toLower) with
    | some markerIdx =>
      let segmentsAfterMarker := pathSegments.length - (markerIdx + 1)
      if isDevinAi then
        if 1 ≤ segmentsAfterMarker then
          some ("/" ++ String.intercalate "/" (pathSegments.take (markerIdx + 2)))
        else
          some ("/" ++ String.intercalate "/" (pathSegments.take (markerIdx + 1)))
      else
        if 2 ≤ segmentsAfterMarker then
          some ("/" ++ String.intercalate "/" (pathSegments.take (markerIdx + 3)))
        else
          some ("/" ++ String.intercalate "/" (pathSegments.take (markerIdx + 2)))
    | none =>
      if 2 ≤ pathSegments.length then
        some ("/" ++ String.intercalate "/" (pathSegments.take 2))
      else
        match pathSegments with
        | [seg] => some ("/" ++ seg)
        | _ => some "/"

/-- filterPagesToProject from the service worker source part 000. The
resolveURL parameter models the host parser applied to a page URL with
the base origin. -/
def filterPagesToProject (parseURL : String → Option ParsedURL)
    (resolveURL : String → String → Option ParsedURL)
    (pages : List PageEntry) (currentUrl : String) : List PageEntry :=
  match parseURL currentUrl with
  | none => pages
  | some base =>
    let isDevinAi := strIncludes base.hostname "devin.ai"
    let currentPathNormalized := stripTrailingSlash base.pathname
    let scope := getProjectScopePath parseURL currentUrl
    if pages.isEmpty then []
    else
      pages.filter fun page =>
        match resolveURL page.url base.origin with
        | none => false
        | some pageUrl =>
          if pageUrl.origin ≠ base.origin then false
          else if isDevinAi then
            stripTrailingSlash pageUrl.pathname == currentPathNormalized
          else
            match scope with
            | none => true
            | some pre => strStartsWith pageUrl.pathname pre

/-! ## Batch orchestrator state machine -/

/-- A converted page recorded in the run outputs. -/
structure ConvertedPage where
  title : String
  content : String
deriving DecidableEq

/-- The singleton batch run state of the service worker. The file name
set is modelled as a list of the names in insertion order. -/
structure BatchState where
  isRunning : Bool
  tabId : Option Nat
  originalUrl : Option String
  pages : List PageEntry
  convertedPages : List ConvertedPage
  folderName : String
  processed : Nat
  failed : Nat
  cancelRequested : Bool
  total : Nat
  currentTitle : String
  fileNames : List String
deriving DecidableEq

/-- createInitialBatchState from the source. -/
def createInitialBatchState : BatchState :=
  ⟨false, none, none, [], [], "", 0, 0, false, 0, "", []⟩

/-- isValidUrl from the source: the URL string is truthy and mentions a
supported host. -/
def isValidUrl (url : String) : Bool :=
  url ≠ "" && (strIncludes url "deepwiki.com" || strIncludes url "devin.ai")

/-- The tab object returned by the chrome tabs lookup. -/
structure TabInfo where
  id : Nat
  url : String
deriving DecidableEq

/-- The response of the extractAllPages request, as startBatchProcessing
reads it. Absent error and title fields are empty strings. -/
structure ExtractionResp where
  success : Bool
  error : String
  pages : List PageEntry
  headTitle : String
  currentTitle : String
deriving DecidableEq

/-- The value startBatchProcessing resolves with. -/
structure StartResult where
  total : Nat
  folderName : String
deriving DecidableEq

/-- startBatchProcessing from the service worker source part 000. The
chrome tab lookup and the extraction request are inputs: each either
rejects with an error message or resolves, the extraction possibly with
no response object. The function returns the synchronous outcome and the
batch state after the call. The guard against a running batch is the
first statement of the source, before any state mutation. -/
def startBatchProcessing (s : BatchState) (tabLookup : Except String TabInfo)
    (extraction : Except String (Option ExtractionResp))
    (parseURL : String → Option ParsedURL)
    (resolveURL : String → String → Option ParsedURL) :
    Except String StartResult × BatchState :=
  if s.isRunning then (.error "Batch conversion already running.", s)
  else
    match tabLookup with
    | .error e => (.error e, s)
    | .ok tab =>
      if isValidUrl tab.url = false then
        (.error "Please open a DeepWiki or Devin page before starting batch conversion.", s)
      else
        match extraction with
        | .error e => (.error e, s)
        | .ok none => (.error "Failed to extract sidebar links.", s)
        | .ok (some ext) =>
          if ext.success = false then
            (.error (jsOr ext.error "Failed to extract sidebar links."), s)
          else
            let pages := filterPagesToProject parseURL resolveURL ext.pages tab.url
            if pages.isEmpty then
              (.error "No child pages were detected for the current project.", s)
            else
              let ns : BatchState :=
                { isRunning := true
                  tabId := some tab.id
                  originalUrl := some tab.url
                  pages := pages
                  convertedPages := []
                  folderName :=
                    sanitizeFolderName (jsOr ext.headTitle (jsOr ext.currentTitle "deepwiki"))
                  processed := 0
                  failed := 0
                  cancelRequested := false
                  total := pages.length
                  currentTitle := ""
                  fileNames := [] }
              (.ok ⟨ns.total, ns.folderName⟩, ns)

/-- cancelBatchProcessing from the source: with no run active, return
false and change nothing; otherwise arm the cancellation flag and
return true. -/
def cancelBatchProcessing (s : BatchState) : Bool × BatchState :=
  if s.isRunning = false then (false, s)
  else (true, { s with cancelRequested := true })

/-- The effect one processSinglePage call has on the run counters: the
page converted and was recorded, the page threw and the loop counts the
failure, or the call returned early after observing the cancellation
flag inside the page. -/
inductive PageOutcome where
  | success (page : ConvertedPage)
  | failure (msg : String)
  | skipped
deriving DecidableEq

/-- Apply the counter effect of one page. A thrown page is counted as
failed by the catch block of the run loop. -/
def applyOutcome (o : PageOutcome) (s : BatchState) : BatchState :=
  match o with
  | .success c =>
    { s with processed := s.processed + 1, convertedPages := s.convertedPages ++ [c] }
  | .failure _ => { s with failed := s.failed + 1 }
  | .skipped => s

/-- The page loop of runBatchProcessing: before each page the
cancellation flag is checked; a set flag breaks the loop. Each iteration
records the page index it starts, sets the current title, applies the
page outcome, and then the cancellation flag may be armed by a
cancelBatchProcessing call arriving while that page was in flight. -/
def runBatchLoop (outcomes : Nat → PageOutcome) (cancelDuring : Nat → Bool) :
    List PageEntry → Nat → BatchState → List Nat → List Nat × BatchState
  | [], _, s, log => (log, s)
  | page :: rest, i, s, log =>
    if s.cancelRequested then (log, s)
    else
      let s1 := applyOutcome (outcomes i) { s with currentTitle := page.title }
      let s2 := if cancelDuring i then { s1 with cancelRequested := true } else s1
      runBatchLoop outcomes cancelDuring rest (i + 1) s2 (log ++ [i])

/-- The terminal status record a run broadcasts. -/
structure BatchReport where
  rtype : String
  processed : Nat
  failed : Nat
deriving DecidableEq

/-- runBatchProcessing from the source: run the page loop, then report
cancelled when the flag is set, an error when nothing converted or the
archive step rejected, and completed otherwise; in every case the
singleton run state is reset. Returns the page indices started, the
terminal report, and the final state. -/
def runBatchProcessing (outcomes : Nat → PageOutcome) (cancelDuring : Nat → Bool)
    (zipRes : Except String Unit) (s : BatchState) :
    List Nat × BatchReport × BatchState :=
  let r := runBatchLoop outcomes cancelDuring s.pages 0 s []
  let log := r.1
  let s1 := r.2
  if s1.cancelRequested then
    (log, ⟨"cancelled", s1.processed, s1.failed⟩, createInitialBatchState)
  else if s1.convertedPages.isEmpty then
    (log, ⟨"error", s1.processed, s1.failed⟩, createInitialBatchState)
  else
    match zipRes with
    | .error _ => (log, ⟨"error", s1.processed, s1.failed⟩, createInitialBatchState)
    | .ok _ => (log, ⟨"completed", s1.processed, s1.failed⟩, createInitialBatchState)

/-- Number of successful pages among the outcomes of the given index
range. -/
def countSuccessesFrom (outcomes : Nat → PageOutcome) : Nat → Nat → Nat
  | _, 0 => 0
  | i, n + 1 =>
    (match outcomes i with | .success _ => 1 | _ => 0) +
      countSuccessesFrom outcomes (i + 1) n

/-- Number of failed pages among the outcomes of the given index range. -/
def countFailuresFrom (outcomes : Nat → PageOutcome) : Nat → Nat → Nat
  | _, 0 => 0
  | i, n + 1 =>
    (match outcomes i with | .failure _ => 1 | _ => 0) +
      countFailuresFrom outcomes (i + 1) n

/-- A concrete two-page run used as a witness scenario. -/
def twoPageRunState : BatchState :=
  { createInitialBatchState with
    isRunning := true
    pages := [⟨"u1", "t1", none, ""⟩, ⟨"u2", "t2", none, ""⟩]
    total := 2 }

/-! ## Theorems -/

theorem urlsRoughlyMatch_missing_left (u : URLInput) :
    urlsRoughlyMatch .missing u = true := by
  cases u <;> rfl

theorem urlsRoughlyMatch_unparsable_left (u : URLInput) :
    urlsRoughlyMatch .unparsable u = true := by
  cases u <;> rfl

theorem foldl_dispatchOne_dispatched (oracle : Nat → DirectResult) :
    ∀ (q : List QItem) (s : TabQueueState),
      (q.foldl (dispatchOne oracle) s).dispatched = s.dispatched ++ q := by
  intro q
  induction q with
  | nil => intro s; simp
  | cons it rest ih =>
    intro s
    simp only [List.foldl_cons, ih, dispatchOne, List.append_assoc,
      List.singleton_append]

theorem foldl_dispatchOne_queue (oracle : Nat → DirectResult) :
    ∀ (q : List QItem) (s : TabQueueState),
      (q.foldl (dispatchOne oracle) s).queue = s.queue := by
  intro q
  induction q with
  | nil => intro s; simp
  | cons it rest ih => intro s; simp only [List.foldl_cons, ih, dispatchOne]

theorem foldl_dispatchOne_isReady (oracle : Nat → DirectResult) :
    ∀ (q : List QItem) (s : TabQueueState),
      (q.foldl (dispatchOne oracle) s).isReady = s.isReady := by
  intro q
  induction q with
  | nil => intro s; simp
  | cons it rest ih => intro s; simp only [List.foldl_cons, ih, dispatchOne]

theorem settledHas_append_single (log : List (Nat × Settle)) (id j : Nat)
    (x : Settle) :
    settledHas (log ++ [(id, x)]) j = (settledHas log j || (id == j)) := by
  simp [settledHas, List.any_append, BEq.comm]

theorem foldl_dispatchOne_settled (oracle : Nat → DirectResult) :
    ∀ (q : List QItem) (s : TabQueueState),
      (∀ it ∈ q, settledHas s.settled it.sendId = false) →
      (q.map QItem.sendId).Nodup →
      (q.foldl (dispatchOne oracle) s).settled =
        s.settled ++ q.map fun it => (it.sendId, settleOfDirect (oracle it.sendId)) := by
  intro q
  induction q with
  | nil => intro s _ _; simp
  | cons it rest ih =>
    intro s hfresh hnodup
    have h1 : settledHas s.settled it.sendId = false := hfresh it (by simp)
    have e1 : (dispatchOne oracle s it).settled =
        s.settled ++ [(it.sendId, settleOfDirect (oracle it.sendId))] := by
      simp [dispatchOne, settleOnce, h1]
    have hnd := hnodup
    simp only [List.map_cons, List.nodup_cons] at hnd
    rw [List.foldl_cons, ih]
    · rw [e1]; simp
    · intro it' hit'
      rw [e1, settledHas_append_single]
      have hfr : settledHas s.settled it'.sendId = false :=
        hfresh it' (by simp [hit'])
      have hne : it.sendId ≠ it'.sendId := by
        intro hcontr
        exact hnd.1 (hcontr ▸ List.mem_map_of_mem QItem.sendId hit')
      simp [hfr, hne]
    · exact hnd.2

theorem enqueueAll_spec : ∀ (msgs : List Nat) (s : TabQueueState),
    (enqueueAll msgs s).queue = s.queue ++ mkItems s.nextId msgs ∧
    (enqueueAll msgs s).settled = s.settled ∧
    (enqueueAll msgs s).dispatched = s.dispatched ∧
    (enqueueAll msgs s).isReady = s.isReady := by
  intro msgs
  induction msgs with
  | nil => intro s; simp [enqueueAll, mkItems]
  | cons p ps ih =>
    intro s
    have step : enqueueAll (p :: ps) s = enqueueAll ps (queueMessageForTab p s) := rfl
    obtain ⟨ihq, ihs, ihd, ihr⟩ := ih (queueMessageForTab p s)
    refine ⟨?_, ?_, ?_, ?_⟩
    · rw [step, ihq]; simp [queueMessageForTab, mkItems]
    · rw [step, ihs]; simp [queueMessageForTab]
    · rw [step, ihd]; simp [queueMessageForTab]
    · rw [step, ihr]; simp [queueMessageForTab]

theorem mkItems_map_payload : ∀ (i : Nat) (msgs : List Nat),
    (mkItems i msgs).map QItem.payload = msgs := by
  intro i msgs
  induction msgs generalizing i with
  | nil => simp [mkItems]
  | cons p ps ih => simp [mkItems, ih]

theorem mkItems_map_sendId : ∀ (i : Nat) (msgs : List Nat),
    (mkItems i msgs).map QItem.sendId = idsFrom i msgs.length := by
  intro i msgs
  induction msgs generalizing i with
  | nil => simp [mkItems, idsFrom]
  | cons p ps ih => simp [mkItems, idsFrom, ih]

theorem mem_idsFrom : ∀ (n i j : Nat), j ∈ idsFrom i n → i ≤ j := by
  intro n
  induction n with
  | zero => intro i j h; simp [idsFrom] at h
  | succ m ih =>
    intro i j h
    simp only [idsFrom, List.mem_cons] at h
    rcases h with h | h
    · omega
    · have := ih (i + 1) j h; omega

theorem idsFrom_nodup : ∀ (n i : Nat), (idsFrom i n).Nodup := by
  intro n
  induction n with
  | zero => intro i; simp [idsFrom]
  | succ m ih =>
    intro i
    simp only [idsFrom, List.nodup_cons]
    refine ⟨fun hmem => ?_, ih (i + 1)⟩
    have := mem_idsFrom m (i + 1) i hmem
    omega

theorem lookupSettle_append_fresh : ∀ (log : List (Nat × Settle)) (id : Nat)
    (x : Settle), settledHas log id = false →
    lookupSettle (log ++ [(id, x)]) id = some x := by
  intro log id x h
  induction log with
  | nil => simp [lookupSettle]
  | cons p rest ih =>
    simp only [settledHas, List.any_cons, Bool.or_eq_false_iff] at h
    simp only [List.cons_append, lookupSettle, List.find?]
    rw [h.1]
    exact ih h.2

/-- Claim C1, counterexample. A send issued while the delivery-queue
entry of the target is marked ready and whose direct delivery fails with
the no-receiver error rejects the caller: it is not buffered, although
shouldQueueForError classifies the error as queueable. -/
theorem claim_C1_counterexample :
    (sendMessageToTab (some { pendingEmptyEntry with isReady := true })
        (.err "Receiving end does not exist") 5).1 =
      SendOutcome.rejected "Receiving end does not exist" ∧
    shouldQueueForError "Receiving end does not exist" = true := by
  exact ⟨rfl, by decide⟩

/-- Claim C1, amended. The transparent fallback to buffering on a
no-receiver delivery failure applies exactly when the target has no
delivery-queue entry at all; when the entry is marked ready, the failed
direct delivery rejects the caller instead of buffering. -/
theorem claim_C1_amended (m : String) (payload : Nat) (e : TabQueueState)
    (hq : shouldQueueForError m = true) (hr : e.isReady = true) :
    (sendMessageToTab none (.err m) payload).1 = SendOutcome.queued ∧
    (sendMessageToTab (some e) (.err m) payload).1 = SendOutcome.rejected m := by
  constructor
  · simp [sendMessageToTab, hq]
  · simp [sendMessageToTab, hr]

/-- Witness for the amended claim C1 at a concrete error message and a
concrete ready entry. -/
theorem claim_C1_witness :
    (sendMessageToTab none (.err "Could not establish connection") 3).1 =
      SendOutcome.queued ∧
    (sendMessageToTab (some { pendingEmptyEntry with isReady := true })
        (.err "Could not establish connection") 3).1 =
      SendOutcome.rejected "Could not establish connection" :=
  claim_C1_amended "Could not establish connection" 3
    { pendingEmptyEntry with isReady := true } (by decide) rfl

/-- Claim C2, counterexample. A buffered item whose timeout fires has its
promise rejected, but the item is not removed from the buffer, and a
subsequent flush still dispatches the timed-out payload to the tab. This
refutes the claim that an expired item is removed and never later
dispatched. -/
theorem claim_C2_counterexample :
    (timerFire (queueMessageForTab 7 pendingEmptyEntry) 0).queue =
      [⟨0, 7, 30000⟩] ∧
    lookupSettle (timerFire (queueMessageForTab 7 pendingEmptyEntry) 0).settled 0 =
      some Settle.rejectedTimeout ∧
    (flushMessageQueue (fun _ => .ok 0)
        (timerFire (queueMessageForTab 7 pendingEmptyEntry) 0)).dispatched =
      [⟨0, 7, 30000⟩] := by
  decide

/-- Claim C2, amended. Every buffered item is armed with the 30 second
MESSAGE_TIMEOUT; when the timeout of a still-unsettled item fires, the
promise of that send is rejected with the timeout error, so no send
stays pending past its deadline. The expired item is however not removed
from the buffer, and a subsequent flush dispatches every buffered
payload, the timed-out ones included, their settlement callbacks then
being no-ops. -/
theorem claim_C2_amended (payload : Nat) (s : TabQueueState) (id : Nat)
    (oracle : Nat → DirectResult)
    (harmed : s.timerArmed.contains id = true)
    (hunsettled : settledHas s.settled id = false) :
    MESSAGE_TIMEOUT = 30000 ∧
    (queueMessageForTab payload s).queue =
      s.queue ++ [⟨s.nextId, payload, MESSAGE_TIMEOUT⟩] ∧
    lookupSettle (timerFire s id).settled id = some Settle.rejectedTimeout ∧
    (timerFire s id).queue = s.queue ∧
    (flushMessageQueue oracle s).dispatched = s.dispatched ++ s.queue := by
  have hmem : id ∈ s.timerArmed := by simpa using harmed
  refine ⟨rfl, rfl, ?_, ?_, ?_⟩
  · simp only [timerFire, harmed, if_true, settleOnce, hunsettled,
      Bool.false_eq_true, if_false]
    exact lookupSettle_append_fresh s.settled id .rejectedTimeout hunsettled
  · simp [timerFire, hmem]
  · simp [flushMessageQueue, foldl_dispatchOne_dispatched]

/-- Witness for the amended claim C2 at a concrete one-item buffer with
an armed, unsettled timer. -/
theorem claim_C2_witness :
    MESSAGE_TIMEOUT = 30000 ∧
    (queueMessageForTab 9 (queueMessageForTab 7 pendingEmptyEntry)).queue =
      (queueMessageForTab 7 pendingEmptyEntry).queue ++
        [⟨(queueMessageForTab 7 pendingEmptyEntry).nextId, 9, MESSAGE_TIMEOUT⟩] ∧
    lookupSettle (timerFire (queueMessageForTab 7 pendingEmptyEntry) 0).settled 0 =
      some Settle.rejectedTimeout ∧
    (timerFire (queueMessageForTab 7 pendingEmptyEntry) 0).queue =
      (queueMessageForTab 7 pendingEmptyEntry).queue ∧
    (flushMessageQueue (fun _ => .ok 0)
        (queueMessageForTab 7 pendingEmptyEntry)).dispatched =
      (queueMessageForTab 7 pendingEmptyEntry).dispatched ++
        (queueMessageForTab 7 pendingEmptyEntry).queue :=
  claim_C2_amended 9 (queueMessageForTab 7 pendingEmptyEntry) 0 (fun _ => .ok 0)
    (by decide) (by decide)

/-- Claim C3. For any sequence of sends buffered while the target is
marked pending, the markReady flush dispatches the payloads in the
original submission order, each exactly once, and the promise of every
send is settled exactly once: the dispatch log equals the submission
list, the dispatched send identities are the distinct consecutive ones,
and the settlement log holds exactly one entry per send. -/
theorem claim_C3 (msgs : List Nat) (oracle : Nat → DirectResult) :
    (flushMessageQueue oracle (enqueueAll msgs pendingEmptyEntry)).dispatched.map
        QItem.payload = msgs ∧
    (flushMessageQueue oracle (enqueueAll msgs pendingEmptyEntry)).dispatched.map
        QItem.sendId = idsFrom 0 msgs.length ∧
    (flushMessageQueue oracle (enqueueAll msgs pendingEmptyEntry)).settled =
      (mkItems 0 msgs).map (fun it => (it.sendId, settleOfDirect (oracle it.sendId))) ∧
    (flushMessageQueue oracle (enqueueAll msgs pendingEmptyEntry)).queue = [] ∧
    (flushMessageQueue oracle (enqueueAll msgs pendingEmptyEntry)).isReady = true := by
  obtain ⟨hq, hs, hd, hr⟩ := enqueueAll_spec msgs pendingEmptyEntry
  have hq' : (enqueueAll msgs pendingEmptyEntry).queue = mkItems 0 msgs := by
    simpa [pendingEmptyEntry] using hq
  have hs' : (enqueueAll msgs pendingEmptyEntry).settled = [] := by
    simpa [pendingEmptyEntry] using hs
  have hd' : (enqueueAll msgs pendingEmptyEntry).dispatched = [] := by
    simpa [pendingEmptyEntry] using hd
  have hnodup : ((enqueueAll msgs pendingEmptyEntry).queue.map QItem.sendId).Nodup := by
    rw [hq', mkItems_map_sendId]
    exact idsFrom_nodup msgs.length 0
  have hfresh : ∀ it ∈ (enqueueAll msgs pendingEmptyEntry).queue,
      settledHas ({ enqueueAll msgs pendingEmptyEntry with
        isReady := true, queue := [] } : TabQueueState).settled it.sendId = false := by
    intro it _
    have hb : ({ enqueueAll msgs pendingEmptyEntry with
        isReady := true, queue := [] } : TabQueueState).settled = [] := hs'
    rw [hb]
    rfl
  refine ⟨?_, ?_, ?_, ?_, ?_⟩
  · simp only [flushMessageQueue, foldl_dispatchOne_dispatched]
    simp [hd', hq', mkItems_map_payload]
  · simp only [flushMessageQueue, foldl_dispatchOne_dispatched]
    simp [hd', hq', mkItems_map_sendId]
  · simp only [flushMessageQueue,
      foldl_dispatchOne_settled oracle _ _ hfresh hnodup]
    simp [hs', hq']
  · simp only [flushMessageQueue, foldl_dispatchOne_queue]
  · simp only [flushMessageQueue, foldl_dispatchOne_isReady]

/-- Witness for claim C3 at a concrete two-send scenario. -/
theorem claim_C3_witness :
    (flushMessageQueue (fun _ => .ok 1)
        (enqueueAll [4, 5] pendingEmptyEntry)).dispatched.map QItem.payload =
      [4, 5] ∧
    (flushMessageQueue (fun _ => .ok 1)
        (enqueueAll [4, 5] pendingEmptyEntry)).dispatched.map QItem.sendId =
      idsFrom 0 [4, 5].length ∧
    (flushMessageQueue (fun _ => .ok 1)
        (enqueueAll [4, 5] pendingEmptyEntry)).settled =
      (mkItems 0 [4, 5]).map
        (fun it => (it.sendId, settleOfDirect ((fun _ => .ok 1) it.sendId))) ∧
    (flushMessageQueue (fun _ => .ok 1)
        (enqueueAll [4, 5] pendingEmptyEntry)).queue = [] ∧
    (flushMessageQueue (fun _ => .ok 1)
        (enqueueAll [4, 5] pendingEmptyEntry)).isReady = true :=
  claim_C3 [4, 5] (fun _ => .ok 1)

/-- Claim C4. Calling startBatchProcessing while a run is active fails
with the already-running error and returns the run state unchanged: no
field of the existing run is mutated. -/
theorem claim_C4 (s : BatchState) (tabLookup : Except String TabInfo)
    (extraction : Except String (Option ExtractionResp))
    (parseURL : String → Option ParsedURL)
    (resolveURL : String → String → Option ParsedURL)
    (h : s.isRunning = true) :
    startBatchProcessing s tabLookup extraction parseURL resolveURL =
      (.error "Batch conversion already running.", s) := by
  simp [startBatchProcessing, h]

/-- Witness for claim C4 at a concrete running state. -/
theorem claim_C4_witness :
    startBatchProcessing { createInitialBatchState with isRunning := true }
        (.error "no tab") (.ok none) (fun _ => none) (fun _ _ => none) =
      (.error "Batch conversion already running.",
        { createInitialBatchState with isRunning := true }) :=
  claim_C4 _ _ _ _ _ rfl

/-- Claim C5. For every processed page the conversion operation is
invoked at most twice; a second invocation happens only when the first
response succeeded and its output was classified suspiciously empty; a
page whose retried output is still suspiciously empty, and a page whose
retry fails, end in a page error rather than a recorded output. -/
theorem claim_C5 (readiness : Option ReadinessInfo)
    (convert1 : Except String (Option ConvertResp))
    (retryProbe : Except String (Option ReadinessInfo))
    (convert2 : Except String (Option ConvertResp)) :
    (processSinglePageConversion readiness convert1 retryProbe convert2).2 ≤ 2 ∧
    ((processSinglePageConversion readiness convert1 retryProbe convert2).2 = 2 →
      ∃ r1, convert1 = .ok (some r1) ∧ r1.success = true ∧
        isMarkdownSuspiciouslyEmpty r1.markdown readiness = true) ∧
    (∀ r1 r2 retryReadiness, convert1 = .ok (some r1) → r1.success = true →
      isMarkdownSuspiciouslyEmpty r1.markdown readiness = true →
      retryProbe = .ok retryReadiness →
      convert2 = .ok (some r2) → r2.success = true →
      isMarkdownSuspiciouslyEmpty r2.markdown
        (retryReadiness.orElse fun _ => readiness) = true →
      (processSinglePageConversion readiness convert1 retryProbe convert2).1 =
        .error "Converted markdown appears empty after retry.") ∧
    (∀ r1 retryReadiness, convert1 = .ok (some r1) → r1.success = true →
      isMarkdownSuspiciouslyEmpty r1.markdown readiness = true →
      retryProbe = .ok retryReadiness →
      (convert2 = .ok none ∨
        (∃ r2, convert2 = .ok (some r2) ∧ r2.success = false) ∨
        (∃ e, convert2 = .error e)) →
      ∃ msg,
        (processSinglePageConversion readiness convert1 retryProbe convert2).1 =
          .error msg) := by
  refine ⟨?_, ?_, ?_, ?_⟩
  · unfold processSinglePageConversion
    repeat' split
    all_goals simp
  · intro h2
    cases hc1 : convert1 with
    | error e1 =>
      rw [hc1] at h2
      simp [processSinglePageConversion] at h2
    | ok r1? =>
      cases r1? with
      | none =>
        rw [hc1] at h2
        simp [processSinglePageConversion] at h2
      | some r1 =>
        by_cases hs1 : r1.success = true
        · by_cases hsusp : isMarkdownSuspiciouslyEmpty r1.markdown readiness = true
          · exact ⟨r1, rfl, hs1, hsusp⟩
          · rw [hc1] at h2
            simp [processSinglePageConversion, hs1, hsusp] at h2
        · rw [hc1] at h2
          have hs1' : r1.success = false := by
            revert hs1; cases r1.success <;> simp
          simp [processSinglePageConversion, hs1'] at h2
  · intro r1 r2 retryReadiness h1 hs1 hsusp1 hp h2 hs2 hsusp2
    subst h1; subst hp; subst h2
    simp [processSinglePageConversion, hs1, hsusp1, hs2, hsusp2]
  · intro r1 retryReadiness h1 hs1 hsusp1 hp hbad
    subst h1; subst hp
    rcases hbad with h2 | ⟨r2, h2, hs2⟩ | ⟨e, h2⟩
    · subst h2
      exact ⟨"Conversion retry failed",
        by simp [processSinglePageConversion, hs1, hsusp1]⟩
    · subst h2
      exact ⟨jsOr r2.error "Conversion retry failed",
        by simp [processSinglePageConversion, hs1, hsusp1, hs2]⟩
    · subst h2
      exact ⟨e, by simp [processSinglePageConversion, hs1, hsusp1]⟩

/-- Witness for claim C5: a successful but empty first conversion with no
readiness metrics triggers the retry; a still-empty retry yields the
after-retry error, a missing retry response yields an error, and the
attempt count reaches two only with the first output suspicious. -/
theorem claim_C5_witness :
    ((processSinglePageConversion none (.ok (some ⟨true, "", "", ""⟩)) (.ok none)
        (.ok (some ⟨true, "", "", ""⟩))).1 =
      .error "Converted markdown appears empty after retry.") ∧
    (∃ msg, (processSinglePageConversion none (.ok (some ⟨true, "", "", ""⟩))
        (.ok none) (.ok none)).1 = .error msg) ∧
    (∃ r1, (Except.ok (some (⟨true, "", "", ""⟩ : ConvertResp)) :
        Except String (Option ConvertResp)) = .ok (some r1) ∧ r1.success = true ∧
      isMarkdownSuspiciouslyEmpty r1.markdown none = true) := by
  refine ⟨?_, ?_, ?_⟩
  · exact (claim_C5 none _ _ _).2.2.1 ⟨true, "", "", ""⟩ ⟨true, "", "", ""⟩ none
      rfl rfl (by decide) rfl rfl rfl (by decide)
  · exact (claim_C5 none _ _ _).2.2.2 ⟨true, "", "", ""⟩ none rfl rfl (by decide)
      rfl (Or.inl rfl)
  · exact (claim_C5 none (.ok (some ⟨true, "", "", ""⟩)) (.ok none)
      (.ok (some ⟨true, "", "", ""⟩))).2.1 (by decide)

theorem minTextLengthOf_pos (opt : Option Nat) : 0 < minTextLengthOf opt := by
  cases opt with
  | none => decide
  | some n =>
    simp only [minTextLengthOf]
    split <;> omega

theorem contentReadyCheck_eq_claimCond (minTextLength : Nat) (o : ReadyObs)
    (h : 0 < minTextLength) :
    contentReadyCheck minTextLength o = readinessClaimCond minTextLength o := by
  cases hc : o.container with
  | none =>
    have hz : (minTextLength ≤ 0) = False := by simp; omega
    simp [contentReadyCheck, readinessClaimCond, getContentReadinessMetrics, hc, hz]
  | some c =>
    simp [contentReadyCheck, readinessClaimCond, getContentReadinessMetrics, hc]

theorem waitLoop_firstReady (minTextLength : Nat) (obs : Nat → ReadyObs) :
    ∀ (m fuel k0 : Nat), m ≤ fuel →
      (∀ j, j < m → contentReadyCheck minTextLength (obs (k0 + j)) = false) →
      contentReadyCheck minTextLength (obs (k0 + m)) = true →
      waitForContentReadyLoop minTextLength obs fuel k0 =
        ⟨true, false, getContentReadinessMetrics (obs (k0 + m)).container⟩ := by
  intro m
  induction m with
  | zero =>
    intro fuel k0 _ _ hready
    have hready' : contentReadyCheck minTextLength (obs k0) = true := by
      simpa using hready
    cases fuel with
    | zero => simp [waitForContentReadyLoop, hready']
    | succ f => simp [waitForContentReadyLoop, hready']
  | succ m ih =>
    intro fuel k0 hle hnot hready
    obtain ⟨f, rfl⟩ : ∃ f, fuel = f + 1 := ⟨fuel - 1, by omega⟩
    have h0 : contentReadyCheck minTextLength (obs k0) = false := by
      have := hnot 0 (by omega)
      simpa using this
    simp only [waitForContentReadyLoop, h0, Bool.false_eq_true, if_false]
    have hstep := ih f (k0 + 1) (by omega)
      (fun j hj => by
        rw [show k0 + 1 + j = k0 + (j + 1) from by omega]
        exact hnot (j + 1) (by omega))
      (by
        rw [show k0 + 1 + m = k0 + (m + 1) from by omega]
        exact hready)
    rw [hstep, show k0 + 1 + m = k0 + (m + 1) from by omega]

theorem waitLoop_timeout (minTextLength : Nat) (obs : Nat → ReadyObs) :
    ∀ (fuel k0 : Nat),
      (∀ j, j ≤ fuel → contentReadyCheck minTextLength (obs (k0 + j)) = false) →
      waitForContentReadyLoop minTextLength obs fuel k0 =
        ⟨false, true, getContentReadinessMetrics (obs (k0 + fuel)).container⟩ := by
  intro fuel
  induction fuel with
  | zero =>
    intro k0 h
    have h0 : contentReadyCheck minTextLength (obs k0) = false := by
      simpa using h 0 (le_refl 0)
    simp [waitForContentReadyLoop, h0]
  | succ f ih =>
    intro k0 h
    have h0 : contentReadyCheck minTextLength (obs k0) = false := by
      simpa using h 0 (by omega)
    simp only [waitForContentReadyLoop, h0, Bool.false_eq_true, if_false]
    have hstep := ih (k0 + 1) (fun j hj => by
      rw [show k0 + 1 + j = k0 + (j + 1) from by omega]
      exact h (j + 1) (by omega))
    rw [hstep, show k0 + 1 + f = k0 + (f + 1) from by omega]

/-- Claim C8. The readiness probe resolves ready as soon as a poll
observes an address match together with text length at least the clamped
minimum, at least 6 meaningful elements, or a diagram; the minimum
defaults to 160; and when no poll up to the deadline satisfies this it
resolves, rather than throws, with timedOut set and the metrics observed
at the deadline poll. -/
theorem claim_C8 (obs : Nat → ReadyObs) (opt : Option Nat) (d m : Nat) :
    minTextLengthOf none = 160 ∧
    (m ≤ d →
      (∀ j, j < m → readinessClaimCond (minTextLengthOf opt) (obs j) = false) →
      readinessClaimCond (minTextLengthOf opt) (obs m) = true →
      waitForContentReady (minTextLengthOf opt) obs d =
        ⟨true, false, getContentReadinessMetrics (obs m).container⟩) ∧
    ((∀ j, j ≤ d → readinessClaimCond (minTextLengthOf opt) (obs j) = false) →
      waitForContentReady (minTextLengthOf opt) obs d =
        ⟨false, true, getContentReadinessMetrics (obs d).container⟩) := by
  have hpos := minTextLengthOf_pos opt
  have heq : ∀ o, contentReadyCheck (minTextLengthOf opt) o =
      readinessClaimCond (minTextLengthOf opt) o :=
    fun o => contentReadyCheck_eq_claimCond _ o hpos
  refine ⟨rfl, ?_, ?_⟩
  · intro hle hnot hready
    unfold waitForContentReady
    have := waitLoop_firstReady (minTextLengthOf opt) obs m d 0 hle
      (fun j hj => by rw [Nat.zero_add, heq]; exact hnot j hj)
      (by rw [Nat.zero_add, heq]; exact hready)
    simpa using this
  · intro hnot
    unfold waitForContentReady
    have := waitLoop_timeout (minTextLengthOf opt) obs d 0
      (fun j hj => by rw [Nat.zero_add, heq]; exact hnot j hj)
    simpa using this

/-- Witness for claim C8: a first poll that is already substantial
resolves ready at once, and a trace that never becomes ready times out
with the deadline metrics. -/
theorem claim_C8_witness :
    waitForContentReady (minTextLengthOf none)
        (fun _ => ⟨true, some ⟨200, 0, false⟩⟩) 0 =
      ⟨true, false, getContentReadinessMetrics (some ⟨200, 0, false⟩)⟩ ∧
    waitForContentReady (minTextLengthOf none) (fun _ => ⟨false, none⟩) 2 =
      ⟨false, true, getContentReadinessMetrics none⟩ := by
  constructor
  · exact (claim_C8 (fun _ => ⟨true, some ⟨200, 0, false⟩⟩) none 0 0).2.1
      (le_refl 0) (fun j hj => absurd hj (by omega)) (by decide)
  · exact (claim_C8 (fun _ => ⟨false, none⟩) none 2 0).2.2
      (fun j hj => by decide)

/-- Claim C6. Converted output is suspiciously empty exactly when its
trimmed length is below 80 and either no readiness metrics are available
and the trimmed length is below 20, or the metrics report text length at
least 160, at least 6 meaningful elements, or a diagram. In particular
output of trimmed length at least 80 is never suspicious. -/
theorem claim_C6 (markdown : String) (readiness : Option ReadinessInfo) :
    isMarkdownSuspiciouslyEmpty markdown readiness = true ↔
      (trimmedLength markdown < 80 ∧
        ((metricsOf readiness = none ∧ trimmedLength markdown < 20) ∨
          (∃ m, metricsOf readiness = some m ∧
            (160 ≤ m.textLength ∨ 6 ≤ m.meaningfulCount ∨ m.hasMermaid = true)))) := by
  unfold isMarkdownSuspiciouslyEmpty
  cases h : metricsOf readiness with
  | none =>
    by_cases hl : 80 ≤ trimmedLength markdown <;>
      simp [h, hl, CONTENT_READY_MIN_TEXT] <;> omega
  | some m =>
    by_cases hl : 80 ≤ trimmedLength markdown <;>
      simp [h, hl, CONTENT_READY_MIN_TEXT] <;> push_neg at hl <;> tauto

theorem runBatchLoop_cancelled (outcomes : Nat → PageOutcome)
    (cancelDuring : Nat → Bool) :
    ∀ (rest : List PageEntry) (i : Nat) (s : BatchState) (log : List Nat),
      s.cancelRequested = true →
      runBatchLoop outcomes cancelDuring rest i s log = (log, s) := by
  intro rest
  cases rest with
  | nil => intro i s log _; rfl
  | cons p r => intro i s log h; simp [runBatchLoop, h]

theorem applyOutcome_cancelRequested (o : PageOutcome) (s : BatchState) :
    (applyOutcome o s).cancelRequested = s.cancelRequested := by
  cases o <;> simp [applyOutcome]

theorem runBatchLoop_cancelSpec (outcomes : Nat → PageOutcome)
    (cancelDuring : Nat → Bool) :
    ∀ (k : Nat) (rest : List PageEntry) (i : Nat) (s : BatchState) (log : List Nat),
      s.cancelRequested = false → k < rest.length →
      cancelDuring (i + k) = true → (∀ d, d < k → cancelDuring (i + d) = false) →
      ∃ s1, runBatchLoop outcomes cancelDuring rest i s log =
          (log ++ idsFrom i (k + 1), s1) ∧
        s1.cancelRequested = true ∧
        s1.processed = s.processed + countSuccessesFrom outcomes i (k + 1) ∧
        s1.failed = s.failed + countFailuresFrom outcomes i (k + 1) := by
  intro k
  induction k with
  | zero =>
    intro rest i s log hflag hlen hcd _
    cases rest with
    | nil => simp at hlen
    | cons p r =>
      have hcd' : cancelDuring i = true := by simpa using hcd
      refine ⟨{ applyOutcome (outcomes i) { s with currentTitle := p.title } with
          cancelRequested := true }, ?_, rfl, ?_, ?_⟩
      · simp only [runBatchLoop, hflag, Bool.false_eq_true, if_false, hcd', if_true]
        rw [runBatchLoop_cancelled outcomes cancelDuring r (i + 1) _ _ rfl]
        simp [idsFrom]
      · cases houtcome : outcomes i <;>
          simp [applyOutcome, countSuccessesFrom, houtcome]
      · cases houtcome : outcomes i <;>
          simp [applyOutcome, countFailuresFrom, houtcome]
  | succ k ih =>
    intro rest i s log hflag hlen hcd hprev
    cases rest with
    | nil => simp at hlen
    | cons p r =>
      have h0 : cancelDuring i = false := by simpa using hprev 0 (by omega)
      have hflag1 : (applyOutcome (outcomes i)
          { s with currentTitle := p.title }).cancelRequested = false := by
        rw [applyOutcome_cancelRequested]; exact hflag
      obtain ⟨s1, heq, hc, hp, hf⟩ := ih r (i + 1) _ (log ++ [i]) hflag1
        (by simpa using hlen)
        (by rw [show i + 1 + k = i + (k + 1) from by omega]; exact hcd)
        (fun d hd => by
          rw [show i + 1 + d = i + (d + 1) from by omega]
          exact hprev (d + 1) (by omega))
      rw [hflag] at heq hp hf
      refine ⟨s1, ?_, hc, ?_, ?_⟩
      · simp only [runBatchLoop, hflag, Bool.false_eq_true, if_false, h0]
        rw [heq]
        simp [idsFrom]
      · rw [hp]
        cases houtcome : outcomes i <;>
          simp [applyOutcome, countSuccessesFrom, houtcome] <;> omega
      · rw [hf]
        cases houtcome : outcomes i <;>
          simp [applyOutcome, countFailuresFrom, houtcome] <;> omega

/-- Claim C7. cancelBatchProcessing returns false and changes nothing
when no run is active, and returns true after arming the cancellation
flag when one is; once the flag is armed during page k of a run, no page
after k begins processing, and the run ends in the cancelled report
carrying the processed and failed counts accumulated through page k,
after which the run state is reset. -/
theorem claim_C7 (s : BatchState) (outcomes : Nat → PageOutcome)
    (cancelDuring : Nat → Bool) (zipRes : Except String Unit) (k : Nat) :
    (s.isRunning = false → cancelBatchProcessing s = (false, s)) ∧
    (s.isRunning = true →
      cancelBatchProcessing s = (true, { s with cancelRequested := true })) ∧
    (s.cancelRequested = false → k < s.pages.length → cancelDuring k = true →
      (∀ d, d < k → cancelDuring d = false) →
      ∃ rep : BatchReport,
        runBatchProcessing outcomes cancelDuring zipRes s =
          (idsFrom 0 (k + 1), rep, createInitialBatchState) ∧
        rep.rtype = "cancelled" ∧
        rep.processed = s.processed + countSuccessesFrom outcomes 0 (k + 1) ∧
        rep.failed = s.failed + countFailuresFrom outcomes 0 (k + 1)) := by
  refine ⟨?_, ?_, ?_⟩
  · intro h; simp [cancelBatchProcessing, h]
  · intro h; simp [cancelBatchProcessing, h]
  · intro hflag hlen hcd hprev
    obtain ⟨s1, heq, hc, hp, hf⟩ := runBatchLoop_cancelSpec outcomes cancelDuring
      k s.pages 0 s [] hflag hlen (by simpa using hcd)
      (fun d hd => by simpa using hprev d hd)
    refine ⟨⟨"cancelled", s1.processed, s1.failed⟩, ?_, rfl, hp, hf⟩
    simp only [runBatchProcessing, heq, hc, if_true]
    simp

/-- Witness for claim C7: cancelling with no run active changes nothing;
cancelling a running state arms the flag; and a two-page run cancelled
during the first page starts only page 0 and reports one success. -/
theorem claim_C7_witness :
    (cancelBatchProcessing createInitialBatchState =
      (false, createInitialBatchState)) ∧
    (cancelBatchProcessing twoPageRunState =
      (true, { twoPageRunState with cancelRequested := true })) ∧
    (∃ rep : BatchReport,
      runBatchProcessing (fun _ => .success ⟨"t1", "c1"⟩) (fun j => j == 0) (.ok ())
          twoPageRunState =
        (idsFrom 0 1, rep, createInitialBatchState) ∧
      rep.rtype = "cancelled" ∧
      rep.processed = twoPageRunState.processed +
        countSuccessesFrom (fun _ => .success ⟨"t1", "c1"⟩) 0 1 ∧
      rep.failed = twoPageRunState.failed +
        countFailuresFrom (fun _ => .success ⟨"t1", "c1"⟩) 0 1) := by
  refine ⟨?_, ?_, ?_⟩
  · exact (claim_C7 createInitialBatchState (fun _ => .skipped) (fun _ => false)
      (.ok ()) 0).1 rfl
  · exact (claim_C7 twoPageRunState (fun _ => .skipped) (fun _ => false)
      (.ok ()) 0).2.1 rfl
  · exact (claim_C7 twoPageRunState (fun _ => .success ⟨"t1", "c1"⟩)
      (fun j => j == 0) (.ok ()) 0).2.2 rfl (by decide) (by decide)
      (fun d hd => absurd hd (by omega))

/-- Witness for claim C6 at a concrete empty output with no metrics. -/
theorem claim_C6_witness :
    isMarkdownSuspiciouslyEmpty "" none = true ↔
      (trimmedLength "" < 80 ∧
        ((metricsOf none = none ∧ trimmedLength "" < 20) ∨
          (∃ m, metricsOf none = some m ∧
            (160 ≤ m.textLength ∨ 6 ≤ m.meaningfulCount ∨ m.hasMermaid = true)))) :=
  claim_C6 "" none

/-- Claim C9, counterexample. Two parseable URLs with identical origins
and identical pathnames, differing only in their fragments, fail the
rough comparison of the service worker source: the claim that the
comparison imposes no condition beyond origin and pathname prefix is
false. -/
theorem claim_C9_counterexample :
    urlsRoughlyMatch
        (.parsed ⟨"https://deepwiki.com", "deepwiki.com", "/wiki/own/repo", "#one"⟩)
        (.parsed ⟨"https://deepwiki.com", "deepwiki.com", "/wiki/own/repo", "#two"⟩) =
      false ∧
    strStartsWith "/wiki/own/repo" "/wiki/own/repo" = true := by
  decide

/-- Claim C9, amended. For parseable URLs the rough comparison holds
exactly when the origins are equal, the hashes agree whenever the
expected URL carries a nonempty hash, and one pathname is a prefix of
the other; in particular it never holds for distinct origins. -/
theorem claim_C9_amended (e a : ParsedURL) :
    urlsRoughlyMatch (.parsed e) (.parsed a) = true ↔
      (e.origin = a.origin ∧ (e.hash = "" ∨ a.hash = e.hash) ∧
        (strStartsWith a.pathname e.pathname = true ∨
          strStartsWith e.pathname a.pathname = true)) := by
  unfold urlsRoughlyMatch
  by_cases ho : e.origin = a.origin <;> by_cases hh : e.hash = "" <;>
    by_cases ha : e.hash = a.hash <;> simp [ho, hh, ha] <;> tauto

/-- Witness for the amended claim C9 at concrete parsed URLs. -/
theorem claim_C9_witness :
    urlsRoughlyMatch
        (.parsed ⟨"https://deepwiki.com", "deepwiki.com", "/wiki/own", ""⟩)
        (.parsed ⟨"https://deepwiki.com", "deepwiki.com", "/wiki/own/repo", "#x"⟩) =
      true ↔
      (("https://deepwiki.com" : String) = "https://deepwiki.com" ∧
        (("" : String) = "" ∨ ("#x" : String) = "") ∧
        (strStartsWith "/wiki/own/repo" "/wiki/own" = true ∨
          strStartsWith "/wiki/own" "/wiki/own/repo" = true)) :=
  claim_C9_amended ⟨"https://deepwiki.com", "deepwiki.com", "/wiki/own", ""⟩
    ⟨"https://deepwiki.com", "deepwiki.com", "/wiki/own/repo", "#x"⟩

/-- Claim C10. The rough comparison returns true whenever either URL is
missing or unparsable, so navigation confirmation to such a destination
succeeds regardless of the tab location: waitForTabUrl resolves with no
poll for a missing destination and at the very first poll for an
unparsable one, and the navigation-completed listener accepts any
completed top-frame event for the watched tab. -/
theorem claim_C10 (obs : Nat → Except String URLInput) (d : Nat) (tabId : Nat)
    (completedUrl : URLInput) (u : URLInput) :
    waitForTabUrl .missing obs d = .resolvedNoPoll ∧
    urlsRoughlyMatch .missing u = true ∧
    urlsRoughlyMatch .unparsable u = true ∧
    urlsRoughlyMatch u .missing = true ∧
    (waitForTabUrl .unparsable obs d =
      match obs 0 with
      | .error m => .rejectedTabError 0 m
      | .ok _ => .resolvedAt 0) ∧
    navCompletedAccepts tabId .missing tabId 0 completedUrl = true ∧
    navCompletedAccepts tabId .unparsable tabId 0 completedUrl = true := by
  refine ⟨rfl, urlsRoughlyMatch_missing_left u, urlsRoughlyMatch_unparsable_left u,
    ?_, ?_, ?_, ?_⟩
  · cases u <;> rfl
  · cases d with
    | zero =>
      cases h : obs 0 <;>
        simp [waitForTabUrl, waitForTabUrlLoop, h, urlsRoughlyMatch_unparsable_left]
    | succ f =>
      cases h : obs 0 <;>
        simp [waitForTabUrl, waitForTabUrlLoop, h, urlsRoughlyMatch_unparsable_left]
  · simp [navCompletedAccepts, urlsRoughlyMatch_missing_left]
  · simp [navCompletedAccepts, urlsRoughlyMatch_unparsable_left]

/-- Witness for claim C10 at a concrete observation trace. -/
theorem claim_C10_witness :
    waitForTabUrl .missing (fun _ => .ok .missing) 0 = .resolvedNoPoll ∧
    urlsRoughlyMatch .missing
        (.parsed ⟨"https://other.example", "other.example", "/", ""⟩) = true ∧
    urlsRoughlyMatch .unparsable
        (.parsed ⟨"https://other.example", "other.example", "/", ""⟩) = true ∧
    urlsRoughlyMatch (.parsed ⟨"https://other.example", "other.example", "/", ""⟩)
        .missing = true ∧
    (waitForTabUrl .unparsable (fun _ => .ok .missing) 0 =
      match (fun _ => (.ok .missing : Except String URLInput)) 0 with
      | .error m => .rejectedTabError 0 m
      | .ok _ => .resolvedAt 0) ∧
    navCompletedAccepts 1 .missing 1 0
        (.parsed ⟨"https://other.example", "other.example", "/", ""⟩) = true ∧
    navCompletedAccepts 1 .unparsable 1 0
        (.parsed ⟨"https://other.example", "other.example", "/", ""⟩) = true :=
  claim_C10 (fun _ => .ok .missing) 0 1
    (.parsed ⟨"https://other.example", "other.example", "/", ""⟩)
    (.parsed ⟨"https://other.example", "other.example", "/", ""⟩)
